import Mathlib

/-!
Shallow embedding of the gefsplots repository: three near-identical CLI
scripts (`plot_sfc_variable.py`, `plot_entire_atmosphere_variable.py`,
`plot_halfdegree_data.py`) that build an S3 object key from a date and a
forecast cycle, fetch and decode one GRIB2 file, select one variable, and
render a map.  Pure logic (argument resolution, remote-path construction,
variable/level selection) is embedded as Lean functions; the side effects
(network fetch, image write, interactive display) are embedded as an
explicit effect trace.
-/

namespace Gefsplots

/-- A calendar date, the result of parsing the CLI date string. -/
structure Date where
  year : Nat
  month : Nat
  day : Nat
deriving DecidableEq

/-- Decimal digit characters of a natural number, most significant first
(the rendering used by Python's str/strftime). -/
def decimalDigits (n : Nat) : List Char := Nat.toDigits 10 n

/-- Left-pad a digit list with zeros to width `w` (Python `%0wd` semantics). -/
def padZeros (w : Nat) (ds : List Char) : List Char :=
  List.replicate (w - ds.length) '0' ++ ds

/-- `d.strftime('%Y%m%d')`: zero-padded 4-digit year followed by 2-digit
month and 2-digit day. -/
def strftimeYYYYMMDD (d : Date) : String :=
  ⟨padZeros 4 (decimalDigits d.year) ++ padZeros 2 (decimalDigits d.month) ++
    padZeros 2 (decimalDigits d.day)⟩

/-- A date the `pandas.Timestamp` parser can produce: within the pandas
timestamp year range, with month and day fields in calendar range. -/
def validDate (d : Date) : Prop :=
  1677 ≤ d.year ∧ d.year ≤ 2262 ∧ 1 ≤ d.month ∧ d.month ≤ 12 ∧
    1 ≤ d.day ∧ d.day ≤ 31

/-- Split a character list on `'-'` (the separator of both date formats
the scripts are exercised with). -/
def splitDash (cs : List Char) : List (List Char) :=
  match cs with
  | [] => [[]]
  | c :: rest =>
    if c = '-' then [] :: splitDash rest
    else
      match splitDash rest with
      | [] => [[c]]
      | h :: t => (c :: h) :: t

/-- Read a nonempty all-digit character list as a natural number. -/
def parseNatDigits (cs : List Char) : Option Nat :=
  if cs.isEmpty then none
  else if cs.all Char.isDigit then
    some (cs.foldl (fun acc c => acc * 10 + (c.toNat - 48)) 0)
  else none

/-- The `pandas.Timestamp` general-purpose date-string parser as invoked by
`get_gefs_data`, restricted to the dash-separated forms relevant here: a
leading four-digit component is read year-first (`YYYY-MM-DD`), otherwise
the string is read month-first (`MM-DD-YYYY`, the documented CLI format). -/
def pdTimestampParse (s : String) : Option Date :=
  match splitDash s.data with
  | [a, b, c] =>
    match parseNatDigits a, parseNatDigits b, parseNatDigits c with
    | some x, some y, some z =>
      if a.length = 4 then
        if 1 ≤ y ∧ y ≤ 12 ∧ 1 ≤ z ∧ z ≤ 31 then some ⟨x, y, z⟩ else none
      else if c.length = 4 then
        if 1 ≤ x ∧ x ≤ 12 ∧ 1 ≤ y ∧ y ≤ 31 then some ⟨z, x, y⟩ else none
      else none
    | _, _, _ => none
  | _ => none

/-- The GRIB2 metadata filter passed to the decoder: required
first-fixed-surface type and product-definition template number. -/
structure GribFilter where
  typeOfFirstFixedSurface : Nat
  productDefinitionTemplateNumber : Nat
deriving DecidableEq

/-- Everything `get_gefs_data` hands to the fetching/decoding layer:
the object-store URL, the anonymous-access flag, the local cache
directory, and the optional decode filter. -/
structure FetchRequest where
  url : String
  anon : Bool
  cache_storage : String
  filters : Option GribFilter
deriving DecidableEq

/-- Error taxonomy of the pipeline (the subset the embedded code can raise). -/
inductive Err where
  | InvalidArgument
  | UnknownVariable
  | LevelNotFound
deriving DecidableEq

/-- The f-string URL template of `plot_entire_atmosphere_variable.py` and
`plot_sfc_variable.py` (both scripts use the identical template). -/
def gefs_a2d_url (yyyymmdd cycle : String) : String :=
  "simplecache::s3://noaa-gefs-pds/gefs." ++ yyyymmdd ++ "/" ++ cycle ++
    "/chem/pgrb2ap25/gefs.chem.t" ++ cycle ++ "z.a2d_0p25.f018.grib2"

/-- The f-string URL template of `plot_halfdegree_data.py`. -/
def gefs_a3d_url (yyyymmdd cycle : String) : String :=
  "simplecache::s3://noaa-gefs-pds/gefs." ++ yyyymmdd ++ "/" ++ cycle ++
    "/chem/pgrb2ap5/gefs.chem.t" ++ cycle ++ "z.a3d_0p25.f018.grib2"

/-- `get_gefs_data` of `plot_entire_atmosphere_variable.py`: parse the date,
format it as `YYYYMMDD`, build the URL, and request decoding filtered to
`typeOfFirstFixedSurface=10`, `productDefinitionTemplateNumber=48`. -/
def get_gefs_data_atm (date_str cycle variable_name : String) :
    Except Err FetchRequest :=
  match pdTimestampParse date_str with
  | none => Except.error Err.InvalidArgument
  | some d =>
    Except.ok
      { url := gefs_a2d_url (strftimeYYYYMMDD d) cycle
        anon := true
        cache_storage := "/tmp/files"
        filters := some ⟨10, 48⟩ }

/-- `get_gefs_data` of `plot_sfc_variable.py`: same URL template, decode
filtered to `typeOfFirstFixedSurface=1`,
`productDefinitionTemplateNumber=48`. -/
def get_gefs_data_sfc (date_str cycle variable_name : String) :
    Except Err FetchRequest :=
  match pdTimestampParse date_str with
  | none => Except.error Err.InvalidArgument
  | some d =>
    Except.ok
      { url := gefs_a2d_url (strftimeYYYYMMDD d) cycle
        anon := true
        cache_storage := "/tmp/files"
        filters := some ⟨1, 48⟩ }

/-- `get_gefs_data` of `plot_halfdegree_data.py`: the half-degree URL
template, and no `filters` argument at all. -/
def get_gefs_data_halfdegree (date_str cycle variable_name : String) :
    Except Err FetchRequest :=
  match pdTimestampParse date_str with
  | none => Except.error Err.InvalidArgument
  | some d =>
    Except.ok
      { url := gefs_a3d_url (strftimeYYYYMMDD d) cycle
        anon := true
        cache_storage := "/tmp/files"
        filters := none }

/-- Raw CLI input to `parse_arguments` of the two 0.25-degree scripts:
`none` means the flag was omitted.  Level strings have already passed
argparse's `type=float` conversion, represented exactly as rationals. -/
structure RawArgs where
  date : Option String
  cycle : Option String
  variable_name : Option String
  levels : Option (List Rat)
  output : Option String
deriving DecidableEq

/-- Raw CLI input of `plot_halfdegree_data.py`, which adds `--model_level`. -/
structure RawArgsH where
  date : Option String
  cycle : Option String
  variable_name : Option String
  levels : Option (List Rat)
  output : Option String
  model_level : Option Int
deriving DecidableEq

/-- The resolved argument namespace of the two 0.25-degree scripts. -/
structure Args where
  date : String
  cycle : String
  variable_name : String
  levels : List Rat
  output : String
deriving DecidableEq

/-- The resolved argument namespace of `plot_halfdegree_data.py`. -/
structure ArgsH where
  date : String
  cycle : String
  variable_name : String
  levels : List Rat
  output : String
  model_level : Int
deriving DecidableEq

/-- The argparse `choices` list of `--cycle`. -/
def cycleChoices : List String := ["00", "06", "12", "18"]

/-- `parse_arguments` of `plot_sfc_variable.py`: fill defaults, and reject
(argparse `choices`) a supplied cycle outside the fixed 4-element set.
No other validation is performed. -/
def parse_arguments_sfc (raw : RawArgs) : Except Err Args :=
  let cycle := raw.cycle.getD "12"
  if cycle ∈ cycleChoices then
    Except.ok
      { date := raw.date.getD "01-22-2025"
        cycle := cycle
        variable_name := raw.variable_name.getD "sfc_tot_pm25"
        levels := raw.levels.getD [1, 2, 4, 8, 16, 32, 64, 128]
        output := raw.output.getD "gefs_plot.jpg" }
  else Except.error Err.InvalidArgument

/-- `parse_arguments` of `plot_entire_atmosphere_variable.py`: identical
except for the default variable `totAOD550`. -/
def parse_arguments_atm (raw : RawArgs) : Except Err Args :=
  let cycle := raw.cycle.getD "12"
  if cycle ∈ cycleChoices then
    Except.ok
      { date := raw.date.getD "01-22-2025"
        cycle := cycle
        variable_name := raw.variable_name.getD "totAOD550"
        levels := raw.levels.getD [1, 2, 4, 8, 16, 32, 64, 128]
        output := raw.output.getD "gefs_plot.jpg" }
  else Except.error Err.InvalidArgument

/-- `parse_arguments` of `plot_halfdegree_data.py`: same defaults plus
`--model_level` defaulting to 1. -/
def parse_arguments_halfdegree (raw : RawArgsH) : Except Err ArgsH :=
  let cycle := raw.cycle.getD "12"
  if cycle ∈ cycleChoices then
    Except.ok
      { date := raw.date.getD "01-22-2025"
        cycle := cycle
        variable_name := raw.variable_name.getD "sfc_tot_pm25"
        levels := raw.levels.getD [1, 2, 4, 8, 16, 32, 64, 128]
        output := raw.output.getD "gefs_plot.jpg"
        model_level := raw.model_level.getD 1 }
  else Except.error Err.InvalidArgument

/-- A decoded labeled array: the vertical coordinate values
(`valueOfFirstFixedSurface`, used only by the half-degree variant); the
gridded data itself is opaque to the selection logic. -/
structure LabeledArray where
  vertCoord : List Int
deriving DecidableEq

/-- A decoded Dataset: a mapping from variable name to labeled array.
`ds[variable]` is lookup; a missing key raises (KeyError). -/
def Dataset := List (String × LabeledArray)

/-- `ds[variable]` of xarray: exact key lookup in the variable mapping. -/
def lookupVar (ds : Dataset) (variable_name : String) : Option LabeledArray :=
  ds.lookup variable_name

/-- Observable side effects of one script run, in order of occurrence. -/
inductive Effect where
  | networkFetch (url : String)
  | writeImage (path : String)
  | showWindow
deriving DecidableEq

/-- The rendering configuration `create_plot` commits to the saved image:
under-range color, dateline roll, contour levels, state-boundary overlay,
figure size, and the axis limits set before saving. -/
structure PlotResult where
  cmapUnder : String
  rollDateline : Bool
  levels : List Rat
  states : Bool
  figsize : Nat × Nat
  ylim : Int × Int
  xlim : Int × Int
deriving DecidableEq

/-- `create_plot` of `plot_sfc_variable.py` (and, identically, of
`plot_entire_atmosphere_variable.py`): index the Dataset by variable name
(KeyError → `UnknownVariable`, nothing rendered), then plot with the turbo
colormap with under-range white, roll the dateline, overlay states, clip to
latitude 10..50 and longitude -130..-90, save the image, and show a window. -/
def create_plot_sfc (ds : Dataset) (variable_name : String) (levels : List Rat)
    (output_file : String) : List Effect × Except Err PlotResult :=
  match lookupVar ds variable_name with
  | none => ([], Except.error Err.UnknownVariable)
  | some _ =>
    ([Effect.writeImage output_file, Effect.showWindow],
     Except.ok
       { cmapUnder := "white"
         rollDateline := true
         levels := levels
         states := true
         figsize := (10, 10)
         ylim := (10, 50)
         xlim := (-130, -90) })

/-- `create_plot` of `plot_halfdegree_data.py`: index by variable name
(KeyError → `UnknownVariable`), then `.sel(valueOfFirstFixedSurface=
model_level)` — exact-equality label selection, KeyError → `LevelNotFound`
when no coordinate value equals `model_level`; only on success is the image
saved and shown. -/
def create_plot_halfdegree (ds : Dataset) (variable_name : String)
    (model_level : Int) (levels : List Rat) (output_file : String) :
    List Effect × Except Err PlotResult :=
  match lookupVar ds variable_name with
  | none => ([], Except.error Err.UnknownVariable)
  | some arr =>
    if model_level ∈ arr.vertCoord then
      ([Effect.writeImage output_file, Effect.showWindow],
       Except.ok
         { cmapUnder := "white"
           rollDateline := true
           levels := levels
           states := true
           figsize := (10, 10)
           ylim := (10, 50)
           xlim := (-130, -90) })
    else ([], Except.error Err.LevelNotFound)

/-- `main` of `plot_sfc_variable.py`: parse arguments, fetch (the `remote`
environment maps a URL to the Dataset its bytes decode to), then plot.  An
uncaught error at any stage aborts the rest; the effect trace records the
network fetch and the rendering side effects in order. -/
def main_sfc (raw : RawArgs) (remote : String → Dataset) :
    List Effect × Except Err PlotResult :=
  match parse_arguments_sfc raw with
  | Except.error e => ([], Except.error e)
  | Except.ok args =>
    match get_gefs_data_sfc args.date args.cycle args.variable_name with
    | Except.error e => ([], Except.error e)
    | Except.ok req =>
      let ds := remote req.url
      let r := create_plot_sfc ds args.variable_name args.levels args.output
      (Effect.networkFetch req.url :: r.1, r.2)

/-- `main` of `plot_entire_atmosphere_variable.py`. -/
def main_atm (raw : RawArgs) (remote : String → Dataset) :
    List Effect × Except Err PlotResult :=
  match parse_arguments_atm raw with
  | Except.error e => ([], Except.error e)
  | Except.ok args =>
    match get_gefs_data_atm args.date args.cycle args.variable_name with
    | Except.error e => ([], Except.error e)
    | Except.ok req =>
      let ds := remote req.url
      let r := create_plot_sfc ds args.variable_name args.levels args.output
      (Effect.networkFetch req.url :: r.1, r.2)

/-- `main` of `plot_halfdegree_data.py`. -/
def main_halfdegree (raw : RawArgsH) (remote : String → Dataset) :
    List Effect × Except Err PlotResult :=
  match parse_arguments_halfdegree raw with
  | Except.error e => ([], Except.error e)
  | Except.ok args =>
    match get_gefs_data_halfdegree args.date args.cycle args.variable_name with
    | Except.error e => ([], Except.error e)
    | Except.ok req =>
      let ds := remote req.url
      let r := create_plot_halfdegree ds args.variable_name args.model_level
        args.levels args.output
      (Effect.networkFetch req.url :: r.1, r.2)

/-- A levels sequence is strictly increasing (the ordering notion the spec
states for the Request invariant; the scripts contain no such check). -/
def strictlyIncreasing : List Rat → Bool
  | [] => true
  | [_] => true
  | a :: b :: t => decide (a < b) && strictlyIncreasing (b :: t)

/-! ## Helper lemmas about decimal formatting -/

theorem digitChar_isDigit_fin : ∀ m : Fin 10, (Nat.digitChar m.val).isDigit := by
  decide

theorem digitChar_isDigit (m : Nat) (h : m < 10) : (Nat.digitChar m).isDigit :=
  digitChar_isDigit_fin ⟨m, h⟩

theorem toDigitsCore_all_digit (f : Nat) :
    ∀ (n : Nat) (l : List Char), (∀ c ∈ l, c.isDigit) →
      ∀ c ∈ Nat.toDigitsCore 10 f n l, c.isDigit := by
  induction f with
  | zero => intro n l hl c hc; exact hl c hc
  | succ f ih =>
    intro n l hl c hc
    simp only [Nat.toDigitsCore] at hc
    by_cases h : n / 10 = 0
    · rw [if_pos h] at hc
      rcases List.mem_cons.mp hc with rfl | hmem
      · exact digitChar_isDigit _ (Nat.mod_lt _ (by omega))
      · exact hl c hmem
    · rw [if_neg h] at hc
      refine ih (n / 10) _ ?_ c hc
      intro c' hc'
      rcases List.mem_cons.mp hc' with rfl | h'
      · exact digitChar_isDigit _ (Nat.mod_lt _ (by omega))
      · exact hl c' h'

theorem decimalDigits_all_digit (n : Nat) :
    ∀ c ∈ decimalDigits n, c.isDigit :=
  toDigitsCore_all_digit (n + 1) n [] (by intro c hc; cases hc)

theorem decimalDigits_length_le (n e : Nat) (he : 0 < e) (h : n < 10 ^ e) :
    (decimalDigits n).length ≤ e :=
  Nat.toDigitsCore_length 10 (by omega) (n + 1) n e h he

theorem padZeros_length (w : Nat) (ds : List Char) (h : ds.length ≤ w) :
    (padZeros w ds).length = w := by
  simp [padZeros]
  omega

theorem padZeros_all_digit (w : Nat) (ds : List Char)
    (h : ∀ c ∈ ds, c.isDigit) : ∀ c ∈ padZeros w ds, c.isDigit := by
  intro c hc
  rcases List.mem_append.mp hc with hc | hc
  · rcases List.eq_of_mem_replicate hc with rfl
    decide
  · exact h c hc

theorem strftimeYYYYMMDD_length (d : Date) (hd : validDate d) :
    (strftimeYYYYMMDD d).length = 8 := by
  obtain ⟨h1, h2, h3, h4, h5, h6⟩ := hd
  show (padZeros 4 (decimalDigits d.year) ++ padZeros 2 (decimalDigits d.month) ++
    padZeros 2 (decimalDigits d.day)).length = 8
  rw [List.length_append, List.length_append,
    padZeros_length 4 _ (decimalDigits_length_le d.year 4 (by omega) (by omega)),
    padZeros_length 2 _ (decimalDigits_length_le d.month 2 (by omega) (by omega)),
    padZeros_length 2 _ (decimalDigits_length_le d.day 2 (by omega) (by omega))]

theorem strftimeYYYYMMDD_all_digit (d : Date) :
    ∀ c ∈ (strftimeYYYYMMDD d).data, c.isDigit := by
  intro c hc
  rcases List.mem_append.mp hc with hc | hc
  · rcases List.mem_append.mp hc with hc | hc
    · exact padZeros_all_digit 4 _ (decimalDigits_all_digit d.year) c hc
    · exact padZeros_all_digit 2 _ (decimalDigits_all_digit d.month) c hc
  · exact padZeros_all_digit 2 _ (decimalDigits_all_digit d.day) c hc

theorem cycleChoices_length (cycle : String) (hc : cycle ∈ cycleChoices) :
    cycle.length = 2 := by
  fin_cases hc <;> decide

/-! ## Claims -/

/-- C1: for every valid (date, cycle) pair, the Remote Path Builder yields
the fixed entire-atmosphere template with the date substituted as the exact
8-digit YYYYMMDD string (all digit characters) and the cycle as the exact
2-digit string; whenever the CLI date string parses to that date, the
fetched key is exactly that URL; and concretely, for date 01-22-2025 and
cycle 12, the key ends with
gefs.20250122/12/chem/pgrb2ap25/gefs.chem.t12z.a2d_0p25.f018.grib2. -/
theorem claim1_remote_path_template (d : Date) (cycle : String)
    (hd : validDate d) (hc : cycle ∈ cycleChoices) :
    gefs_a2d_url (strftimeYYYYMMDD d) cycle =
      "simplecache::s3://noaa-gefs-pds/gefs." ++ strftimeYYYYMMDD d ++ "/" ++
        cycle ++ "/chem/pgrb2ap25/gefs.chem.t" ++ cycle ++
        "z.a2d_0p25.f018.grib2" ∧
    (strftimeYYYYMMDD d).length = 8 ∧
    (∀ c ∈ (strftimeYYYYMMDD d).data, c.isDigit) ∧
    cycle.length = 2 ∧
    (∀ date_str v, pdTimestampParse date_str = some d →
      get_gefs_data_atm date_str cycle v =
        Except.ok ⟨gefs_a2d_url (strftimeYYYYMMDD d) cycle, true, "/tmp/files",
          some ⟨10, 48⟩⟩) ∧
    get_gefs_data_atm "01-22-2025" "12" "totAOD550" =
      Except.ok ⟨"simplecache::s3://noaa-gefs-pds/" ++
        "gefs.20250122/12/chem/pgrb2ap25/gefs.chem.t12z.a2d_0p25.f018.grib2",
        true, "/tmp/files", some ⟨10, 48⟩⟩ := by
  refine ⟨rfl, strftimeYYYYMMDD_length d hd, strftimeYYYYMMDD_all_digit d,
    cycleChoices_length cycle hc, ?_, rfl⟩
  intro date_str v hparse
  unfold get_gefs_data_atm
  rw [hparse]

/-- Witness for C1 at date 01-22-2025 (i.e. ⟨2025, 1, 22⟩) and cycle 12. -/
theorem claim1_remote_path_template_witness :
    gefs_a2d_url (strftimeYYYYMMDD ⟨2025, 1, 22⟩) "12" =
      "simplecache::s3://noaa-gefs-pds/gefs." ++ strftimeYYYYMMDD ⟨2025, 1, 22⟩ ++
        "/" ++ "12" ++ "/chem/pgrb2ap25/gefs.chem.t" ++ "12" ++
        "z.a2d_0p25.f018.grib2" ∧
    (strftimeYYYYMMDD ⟨2025, 1, 22⟩).length = 8 ∧
    (∀ c ∈ (strftimeYYYYMMDD ⟨2025, 1, 22⟩).data, c.isDigit) ∧
    String.length "12" = 2 ∧
    (∀ date_str v, pdTimestampParse date_str = some ⟨2025, 1, 22⟩ →
      get_gefs_data_atm date_str "12" v =
        Except.ok ⟨gefs_a2d_url (strftimeYYYYMMDD ⟨2025, 1, 22⟩) "12", true,
          "/tmp/files", some ⟨10, 48⟩⟩) ∧
    get_gefs_data_atm "01-22-2025" "12" "totAOD550" =
      Except.ok ⟨"simplecache::s3://noaa-gefs-pds/" ++
        "gefs.20250122/12/chem/pgrb2ap25/gefs.chem.t12z.a2d_0p25.f018.grib2",
        true, "/tmp/files", some ⟨10, 48⟩⟩ :=
  claim1_remote_path_template ⟨2025, 1, 22⟩ "12"
    (by unfold validDate; decide)
    (by decide)

/-- C2 counterexample: the levels sequence [2, 1] is not strictly
increasing, yet parse_arguments accepts it — no rejection occurs — and
resolves it unchanged. -/
theorem claim2_counterexample :
    strictlyIncreasing [2, 1] = false ∧
    parse_arguments_sfc ⟨none, none, none, some [2, 1], none⟩ =
      Except.ok ⟨"01-22-2025", "12", "sfc_tot_pm25", [2, 1], "gefs_plot.jpg"⟩ :=
  ⟨by decide, rfl⟩

/-- C2 (amended): the Argument Resolver applies no ordering check to
levels — replacing the levels of any accepted input by an arbitrary
sequence still succeeds, resolving exactly that sequence — and whenever the
pipeline renders a plot, its contour levels are exactly the resolved
levels, never re-sorted or de-duplicated. -/
theorem claim2_levels_unvalidated_passed_through (raw : RawArgs)
    (ls : List Rat) (args : Args) (remote : String → Dataset) (r : PlotResult)
    (hp : parse_arguments_sfc raw = Except.ok args)
    (hm : (main_sfc raw remote).2 = Except.ok r) :
    parse_arguments_sfc { raw with levels := some ls } =
      Except.ok { args with levels := ls } ∧
    r.levels = args.levels := by
  have hlev : r.levels = args.levels := by
    unfold main_sfc at hm
    rw [hp] at hm
    dsimp only at hm
    cases hg : get_gefs_data_sfc args.date args.cycle args.variable_name with
    | error e =>
      rw [hg] at hm
      exact Except.noConfusion hm
    | ok req =>
      rw [hg] at hm
      dsimp only at hm
      unfold create_plot_sfc at hm
      cases hl : lookupVar (remote req.url) args.variable_name with
      | none =>
        rw [hl] at hm
        exact Except.noConfusion hm
      | some arr =>
        rw [hl] at hm
        dsimp only at hm
        injection hm with hm
        rw [← hm]
  obtain ⟨d0, c0, v0, l0, o0⟩ := raw
  simp only [parse_arguments_sfc, Option.getD_some] at hp ⊢
  by_cases h : c0.getD "12" ∈ cycleChoices
  · rw [if_pos h] at hp
    injection hp with hp
    subst hp
    exact ⟨by rw [if_pos h], hlev⟩
  · rw [if_neg h] at hp
    exact Except.noConfusion hp

/-- Witness for C2 (amended): the all-defaults input, with its levels
replaced by the non-increasing sequence [2, 1]. -/
theorem claim2_levels_unvalidated_passed_through_witness :
    parse_arguments_sfc ⟨none, none, none, some [2, 1], none⟩ =
      Except.ok ⟨"01-22-2025", "12", "sfc_tot_pm25", [2, 1], "gefs_plot.jpg"⟩ ∧
    PlotResult.levels
      { cmapUnder := "white"
        rollDateline := true
        levels := [1, 2, 4, 8, 16, 32, 64, 128]
        states := true
        figsize := (10, 10)
        ylim := (10, 50)
        xlim := (-130, -90) } = [1, 2, 4, 8, 16, 32, 64, 128] :=
  claim2_levels_unvalidated_passed_through ⟨none, none, none, none, none⟩
    [2, 1]
    ⟨"01-22-2025", "12", "sfc_tot_pm25", [1, 2, 4, 8, 16, 32, 64, 128],
      "gefs_plot.jpg"⟩
    (fun _ => [("sfc_tot_pm25", ⟨[]⟩)]) _ rfl rfl

/-- C5: a supplied cycle outside {00, 06, 12, 18} is rejected by the
Argument Resolver of every script, and the run performs no network fetch:
the whole-run effect trace is empty (parsing precedes fetching). -/
theorem claim5_invalid_cycle_no_network (c : String) (raw : RawArgs)
    (rawh : RawArgsH) (remote : String → Dataset)
    (hbad : c ∉ cycleChoices) (hc : raw.cycle = some c)
    (hch : rawh.cycle = some c) :
    parse_arguments_sfc raw = Except.error Err.InvalidArgument ∧
    parse_arguments_atm raw = Except.error Err.InvalidArgument ∧
    parse_arguments_halfdegree rawh = Except.error Err.InvalidArgument ∧
    main_sfc raw remote = ([], Except.error Err.InvalidArgument) ∧
    main_atm raw remote = ([], Except.error Err.InvalidArgument) ∧
    main_halfdegree rawh remote = ([], Except.error Err.InvalidArgument) ∧
    ∀ u, Effect.networkFetch u ∉ (main_sfc raw remote).1 := by
  have hps : parse_arguments_sfc raw = Except.error Err.InvalidArgument := by
    simp only [parse_arguments_sfc, hc, Option.getD_some, if_neg hbad]
  have hpa : parse_arguments_atm raw = Except.error Err.InvalidArgument := by
    simp only [parse_arguments_atm, hc, Option.getD_some, if_neg hbad]
  have hph : parse_arguments_halfdegree rawh =
      Except.error Err.InvalidArgument := by
    simp only [parse_arguments_halfdegree, hch, Option.getD_some, if_neg hbad]
  have hms : main_sfc raw remote = ([], Except.error Err.InvalidArgument) := by
    unfold main_sfc
    rw [hps]
  have hma : main_atm raw remote = ([], Except.error Err.InvalidArgument) := by
    unfold main_atm
    rw [hpa]
  have hmh : main_halfdegree rawh remote =
      ([], Except.error Err.InvalidArgument) := by
    unfold main_halfdegree
    rw [hph]
  refine ⟨hps, hpa, hph, hms, hma, hmh, ?_⟩
  intro u
  rw [hms]
  exact List.not_mem_nil _

/-- Witness for C5 at the out-of-range cycle 13. -/
theorem claim5_invalid_cycle_no_network_witness :
    parse_arguments_sfc ⟨none, some "13", none, none, none⟩ =
      Except.error Err.InvalidArgument ∧
    parse_arguments_atm ⟨none, some "13", none, none, none⟩ =
      Except.error Err.InvalidArgument ∧
    parse_arguments_halfdegree ⟨none, some "13", none, none, none, none⟩ =
      Except.error Err.InvalidArgument ∧
    main_sfc ⟨none, some "13", none, none, none⟩ (fun _ => []) =
      ([], Except.error Err.InvalidArgument) ∧
    main_atm ⟨none, some "13", none, none, none⟩ (fun _ => []) =
      ([], Except.error Err.InvalidArgument) ∧
    main_halfdegree ⟨none, some "13", none, none, none, none⟩ (fun _ => []) =
      ([], Except.error Err.InvalidArgument) ∧
    ∀ u, Effect.networkFetch u ∉
      (main_sfc ⟨none, some "13", none, none, none⟩ (fun _ => [])).1 :=
  claim5_invalid_cycle_no_network "13" ⟨none, some "13", none, none, none⟩
    ⟨none, some "13", none, none, none, none⟩ (fun _ => []) (by decide) rfl rfl

/-- C3: in the half-degree variant, when the requested model_level has no
exactly equal value in the array's vertical coordinate, create_plot fails
with LevelNotFound (exact-equality matching, no nearest-neighbor fallback)
and produces no side effects — in particular no image is written. -/
theorem claim3_level_not_found (ds : Dataset) (v : String) (ml : Int)
    (levels : List Rat) (out : String) (arr : LabeledArray)
    (hv : lookupVar ds v = some arr) (hml : ml ∉ arr.vertCoord) :
    create_plot_halfdegree ds v ml levels out =
      ([], Except.error Err.LevelNotFound) := by
  simp only [create_plot_halfdegree, hv, if_neg hml]

/-- Witness for C3: model_level 1 against vertical coordinate values
{2, 5, 10}. -/
theorem claim3_level_not_found_witness :
    create_plot_halfdegree [("sfc_tot_pm25", ⟨[2, 5, 10]⟩)] "sfc_tot_pm25" 1
      [1, 2, 4] "gefs_plot.jpg" = ([], Except.error Err.LevelNotFound) :=
  claim3_level_not_found [("sfc_tot_pm25", ⟨[2, 5, 10]⟩)] "sfc_tot_pm25" 1
    [1, 2, 4] "gefs_plot.jpg" ⟨[2, 5, 10]⟩ rfl (by decide)

/-- C4: when the Dataset's variable mapping lacks the requested variable
name, the Variable Selector of each variant fails with UnknownVariable and
produces no effects — it never returns a default or null array. -/
theorem claim4_unknown_variable (ds : Dataset) (v : String) (ml : Int)
    (levels : List Rat) (out : String) (hv : lookupVar ds v = none) :
    create_plot_sfc ds v levels out =
      ([], Except.error Err.UnknownVariable) ∧
    create_plot_halfdegree ds v ml levels out =
      ([], Except.error Err.UnknownVariable) := by
  constructor
  · unfold create_plot_sfc
    rw [hv]
  · unfold create_plot_halfdegree
    rw [hv]

/-- Witness for C4: the empty Dataset and variable totAOD550. -/
theorem claim4_unknown_variable_witness :
    create_plot_sfc [] "totAOD550" [1, 2] "gefs_plot.jpg" =
      ([], Except.error Err.UnknownVariable) ∧
    create_plot_halfdegree [] "totAOD550" 1 [1, 2] "gefs_plot.jpg" =
      ([], Except.error Err.UnknownVariable) :=
  claim4_unknown_variable [] "totAOD550" 1 [1, 2] "gefs_plot.jpg" rfl

/-- C6: whenever the requested variable is present, the Renderer clips the
map to latitude 10..50 and longitude -130..-90, renders under-range values
white, overlays state boundaries, and its side effects are exactly: write
the image at the given output path, then open an interactive window. -/
theorem claim6_renderer_fixed_extent (ds : Dataset) (v : String)
    (levels : List Rat) (out : String) (arr : LabeledArray)
    (hv : lookupVar ds v = some arr) :
    create_plot_sfc ds v levels out =
      ([Effect.writeImage out, Effect.showWindow],
       Except.ok
         { cmapUnder := "white"
           rollDateline := true
           levels := levels
           states := true
           figsize := (10, 10)
           ylim := (10, 50)
           xlim := (-130, -90) }) := by
  unfold create_plot_sfc
  rw [hv]

/-- Witness for C6 on a singleton Dataset. -/
theorem claim6_renderer_fixed_extent_witness :
    create_plot_sfc [("sfc_tot_pm25", ⟨[]⟩)] "sfc_tot_pm25" [1, 2]
      "gefs_plot.jpg" =
      ([Effect.writeImage "gefs_plot.jpg", Effect.showWindow],
       Except.ok
         { cmapUnder := "white"
           rollDateline := true
           levels := [1, 2]
           states := true
           figsize := (10, 10)
           ylim := (10, 50)
           xlim := (-130, -90) }) :=
  claim6_renderer_fixed_extent [("sfc_tot_pm25", ⟨[]⟩)] "sfc_tot_pm25" [1, 2]
    "gefs_plot.jpg" ⟨[]⟩ rfl

/-- C7: with every flag omitted, each script resolves date 01-22-2025,
cycle 12, the script's default variable, levels [1,2,4,8,16,32,64,128],
output gefs_plot.jpg (and, in the half-degree script, model_level 1). -/
theorem claim7_defaults :
    parse_arguments_sfc ⟨none, none, none, none, none⟩ =
      Except.ok ⟨"01-22-2025", "12", "sfc_tot_pm25",
        [1, 2, 4, 8, 16, 32, 64, 128], "gefs_plot.jpg"⟩ ∧
    parse_arguments_atm ⟨none, none, none, none, none⟩ =
      Except.ok ⟨"01-22-2025", "12", "totAOD550",
        [1, 2, 4, 8, 16, 32, 64, 128], "gefs_plot.jpg"⟩ ∧
    parse_arguments_halfdegree ⟨none, none, none, none, none, none⟩ =
      Except.ok ⟨"01-22-2025", "12", "sfc_tot_pm25",
        [1, 2, 4, 8, 16, 32, 64, 128], "gefs_plot.jpg", 1⟩ :=
  ⟨rfl, rfl, rfl⟩

/-- C8: in every script, the fetch request built by get_gefs_data (remote
key, access mode, cache directory, and decode filter) is independent of the
variable argument: calls differing only in the variable are identical. -/
theorem claim8_variable_noninterference (date_str cycle v1 v2 : String) :
    get_gefs_data_sfc date_str cycle v1 = get_gefs_data_sfc date_str cycle v2 ∧
    get_gefs_data_atm date_str cycle v1 = get_gefs_data_atm date_str cycle v2 ∧
    get_gefs_data_halfdegree date_str cycle v1 =
      get_gefs_data_halfdegree date_str cycle v2 :=
  ⟨rfl, rfl, rfl⟩

/-- C9: the decode filter is a fixed constant per product family, whatever
the user input: entire-atmosphere decodes with typeOfFirstFixedSurface 10
and productDefinitionTemplateNumber 48, surface with 1 and 48, and the
half-degree variant applies no filter at all. -/
theorem claim9_fixed_filters (date_str cycle variable_name : String)
    (ra rs rh : FetchRequest)
    (ha : get_gefs_data_atm date_str cycle variable_name = Except.ok ra)
    (hs : get_gefs_data_sfc date_str cycle variable_name = Except.ok rs)
    (hh : get_gefs_data_halfdegree date_str cycle variable_name =
      Except.ok rh) :
    ra.filters = some ⟨10, 48⟩ ∧ rs.filters = some ⟨1, 48⟩ ∧
      rh.filters = none := by
  unfold get_gefs_data_atm at ha
  unfold get_gefs_data_sfc at hs
  unfold get_gefs_data_halfdegree at hh
  cases hp : pdTimestampParse date_str with
  | none =>
    rw [hp] at ha
    cases ha
  | some d =>
    rw [hp] at ha hs hh
    injection ha with ha
    injection hs with hs
    injection hh with hh
    subst ha
    subst hs
    subst hh
    exact ⟨rfl, rfl, rfl⟩

/-- Witness for C9 at date 01-22-2025, cycle 12, variable x. -/
theorem claim9_fixed_filters_witness :
    FetchRequest.filters ⟨gefs_a2d_url "20250122" "12", true, "/tmp/files",
        some ⟨10, 48⟩⟩ = some ⟨10, 48⟩ ∧
    FetchRequest.filters ⟨gefs_a2d_url "20250122" "12", true, "/tmp/files",
        some ⟨1, 48⟩⟩ = some ⟨1, 48⟩ ∧
    FetchRequest.filters ⟨gefs_a3d_url "20250122" "12", true, "/tmp/files",
        none⟩ = none :=
  claim9_fixed_filters "01-22-2025" "12" "x" _ _ _ rfl rfl rfl

/-- C10: the ISO date string 2025-01-22, though not in the documented
MM-DD-YYYY format, is not rejected: the general-purpose timestamp parser
accepts it, it parses to the same date as 01-22-2025, and the Remote Path
Builder produces the identical remote key for both spellings. -/
theorem claim10_iso_date_accepted :
    pdTimestampParse "2025-01-22" = some ⟨2025, 1, 22⟩ ∧
    pdTimestampParse "2025-01-22" = pdTimestampParse "01-22-2025" ∧
    get_gefs_data_sfc "2025-01-22" "12" "sfc_tot_pm25" =
      get_gefs_data_sfc "01-22-2025" "12" "sfc_tot_pm25" ∧
    get_gefs_data_sfc "01-22-2025" "12" "sfc_tot_pm25" =
      Except.ok ⟨gefs_a2d_url "20250122" "12", true, "/tmp/files",
        some ⟨1, 48⟩⟩ :=
  ⟨rfl, rfl, rfl, rfl⟩

end Gefsplots
